import Mathlib

/-!
Verification of the login-job orchestrator in `app.py` (repository
Judentreter187/Manager).  The Python source is shallowly embedded: the SQLite
tables become Lean structures and lists, every store operation becomes a pure
function on an explicit database state, the browser (Playwright) boundary is
modelled by the observations it returns to the orchestrator, and the wall
clock is passed in as explicit timestamp arguments.
-/

namespace Manager

/-- `LOGIN_URL` constant from `app.py`. -/
def LOGIN_URL : String :=
  "https://www.kleinanzeigen.de/m-benutzer-anmeldung-inapp.html?appType=MWEB"

/-- `PROFILE_DIR = DATA_DIR / "profiles"` relative to the application base
directory in `app.py`. -/
def PROFILE_DIR : String := "data/profiles"

/-- Decimal digit character, as rendered by Python string interpolation. -/
def digitChar (d : Nat) : Char := Char.ofNat (48 + d)

/-- Fuel-based decimal rendering worker (structural recursion so that it
reduces inside the kernel; the fuel is always sufficient). -/
def natDigitsAux : Nat → Nat → List Char
  | 0, _ => []
  | fuel + 1, n =>
    if n < 10 then [digitChar n]
    else natDigitsAux fuel (n / 10) ++ [digitChar (n % 10)]

/-- Decimal digit list of a natural number (most significant first), the
rendering used by Python's `f"account_{account_id}"`. -/
def natDigits (n : Nat) : List Char := natDigitsAux (n + 1) n

theorem natDigitsAux_irrel :
    ∀ f1 f2 n, n < f1 → n < f2 → natDigitsAux f1 n = natDigitsAux f2 n := by
  intro f1
  induction f1 with
  | zero => intro f2 n h1 _; exact absurd h1 (Nat.not_lt_zero n)
  | succ f ih =>
    intro f2 n h1 h2
    cases f2 with
    | zero => exact absurd h2 (Nat.not_lt_zero n)
    | succ g =>
      show (if n < 10 then [digitChar n] else natDigitsAux f (n / 10) ++ [digitChar (n % 10)])
        = (if n < 10 then [digitChar n] else natDigitsAux g (n / 10) ++ [digitChar (n % 10)])
      by_cases hn : n < 10
      · simp [hn]
      · have hd : n / 10 < n := Nat.div_lt_self (by omega) (by omega)
        simp only [if_neg hn]
        rw [ih g (n / 10) (by omega) (by omega)]

theorem natDigits_unfold (n : Nat) :
    natDigits n = if n < 10 then [digitChar n]
      else natDigits (n / 10) ++ [digitChar (n % 10)] := by
  show natDigitsAux (n + 1) n = _
  rw [show natDigitsAux (n + 1) n
      = if n < 10 then [digitChar n] else natDigitsAux n (n / 10) ++ [digitChar (n % 10)]
      from rfl]
  by_cases hn : n < 10
  · simp [hn]
  · have hd : n / 10 < n := Nat.div_lt_self (by omega) (by omega)
    simp only [if_neg hn]
    rw [natDigitsAux_irrel n (n / 10 + 1) (n / 10) (by omega) (by omega)]
    rfl

/-- Decimal string of a natural number. -/
def natToString (n : Nat) : String := ⟨natDigits n⟩

/-- `build_profile_path` from `app.py`:
`str(PROFILE_DIR / f"account_{account_id}")`. -/
def build_profile_path (account_id : Nat) : String :=
  PROFILE_DIR ++ "/account_" ++ natToString account_id

/-- Numeric value of a digit character (inverse of `digitChar`). -/
def digitVal (c : Char) : Nat := c.toNat - 48

/-- Decimal parser, used only to prove that the rendering is injective. -/
def parseDigits (l : List Char) : Nat :=
  l.foldl (fun a c => 10 * a + digitVal c) 0

theorem digitVal_digitChar {d : Nat} (h : d < 10) : digitVal (digitChar d) = d := by
  interval_cases d <;> decide

theorem parseDigits_step (l : List Char) (c : Char) :
    parseDigits (l ++ [c]) = 10 * parseDigits l + digitVal c := by
  simp [parseDigits, List.foldl_append]

theorem parseDigits_natDigits (n : Nat) : parseDigits (natDigits n) = n := by
  induction n using Nat.strong_induction_on with
  | _ n ih =>
    rw [natDigits_unfold]
    by_cases h : n < 10
    · simp only [if_pos h]
      show parseDigits ([] ++ [digitChar n]) = n
      rw [parseDigits_step]
      simp [parseDigits, digitVal_digitChar h]
    · simp only [if_neg h]
      rw [parseDigits_step, ih (n / 10) (Nat.div_lt_self (by omega) (by omega)),
        digitVal_digitChar (Nat.mod_lt _ (by omega))]
      omega

theorem natDigits_injective : Function.Injective natDigits := by
  intro m n h
  have := parseDigits_natDigits m
  rw [h, parseDigits_natDigits] at this
  omega

theorem natToString_injective : Function.Injective natToString := by
  intro m n h
  exact natDigits_injective (congrArg String.data h)

theorem build_profile_path_injective : Function.Injective build_profile_path := by
  intro m n h
  apply natToString_injective
  apply String.ext
  have hd := congrArg String.data h
  simp only [build_profile_path, String.data_append, List.append_assoc] at hd
  exact List.append_cancel_left (List.append_cancel_left hd)

theorem build_profile_path_ne_empty (n : Nat) : build_profile_path n ≠ "" := by
  intro h
  have hd := congrArg String.data h
  have hlen := congrArg List.length hd
  simp only [build_profile_path, String.data_append, List.length_append,
    List.length_nil] at hlen
  have h9 : (['/', 'a', 'c', 'c', 'o', 'u', 'n', 't', '_'] : List Char).length = 9 := rfl
  omega

/-- Row of the `login_jobs` table, mirroring the `LoginJob` dataclass in
`app.py` (nullable SQL columns are `Option`; `valid` is the SQL `INTEGER`
tri-state and `account_id` the nullable linked-account column). -/
structure LoginJob where
  id : Nat
  email : String
  password : String
  proxy : String
  ios_profile : String
  profile_path : String
  status : String
  started_at : String
  finished_at : Option String
  checked_at : Option String
  valid : Option Int
  account_id : Option Int
deriving DecidableEq

/-- Row of the `accounts` table in `app.py` (schema of `init_db`;
`profile_path`, `notes`, `created_at` and `password` are nullable columns). -/
structure Account where
  id : Nat
  name : String
  email : String
  age_days : Int
  proxy : String
  ios_profile : String
  profile_path : Option String
  notes : Option String
  created_at : Option String
  password : Option String
deriving DecidableEq

/-- The SQLite database state shared by all operations: the two tables the
orchestrator touches, plus the AUTOINCREMENT counters that produce
`cursor.lastrowid` for each `INSERT`. -/
structure DB where
  jobs : List LoginJob
  accounts : List Account
  nextJobId : Nat
  nextAccountId : Nat
deriving DecidableEq

/-- Well-formedness of the autoincrement counter: every stored job id is
below the next id SQLite will hand out. -/
def WF (db : DB) : Prop := ∀ j ∈ db.jobs, j.id < db.nextJobId

/-- SQL `COALESCE(new, old)`. -/
def coalesce {α : Type} (new old : Option α) : Option α :=
  match new with
  | some v => some v
  | none => old

/-- `fetch_login_job` from `app.py`: `SELECT * FROM login_jobs WHERE id = ?`
(first matching row, or none). -/
def fetch_login_job (db : DB) (job_id : Nat) : Option LoginJob :=
  db.jobs.find? (fun j => j.id == job_id)

/-- The row-level effect of `update_login_job`'s SQL `UPDATE`: status is set
unconditionally, the four optional columns via `COALESCE(?, column)`. -/
def applyUpdate (status : String) (finished_at checked_at : Option String)
    (valid account_id : Option Int) (j : LoginJob) : LoginJob :=
  { j with
    status := status
    finished_at := coalesce finished_at j.finished_at
    checked_at := coalesce checked_at j.checked_at
    valid := coalesce valid j.valid
    account_id := coalesce account_id j.account_id }

/-- `update_login_job` from `app.py`: applies `applyUpdate` to every row
whose id matches (SQL `WHERE id = ?`). -/
def update_login_job (db : DB) (job_id : Nat) (status : String)
    (finished_at checked_at : Option String) (valid account_id : Option Int) : DB :=
  { db with
    jobs := db.jobs.map (fun j =>
      if j.id == job_id then applyUpdate status finished_at checked_at valid account_id j
      else j) }

/-- `INSERT INTO accounts ... ; cursor.lastrowid` in the promotion step of
`login_with_playwright`. -/
def insertAccount (db : DB) (acc : Account) : DB × Nat :=
  ({ db with accounts := db.accounts ++ [acc], nextAccountId := db.nextAccountId + 1 },
   db.nextAccountId)

/-- `create_login_job` from `app.py`.  The current wall-clock string
(`datetime.now().strftime("%Y-%m-%d %H:%M")`) is passed in as `started_at`.
The row is inserted with `account_id = 0`, status `"running"` and an empty
`profile_path`, then a second statement persists
`build_profile_path(job_id)`.  Also returns the list of status writes the
call issued (for the lifecycle trace). -/
def create_login_job (db : DB) (started_at email password proxy : String) :
    DB × Nat × List (String × Option String) :=
  let ios_profile := "iPhone 13"
  let job_id := db.nextJobId
  let row : LoginJob :=
    { id := job_id, email := email, password := password, proxy := proxy
      ios_profile := ios_profile, profile_path := "", status := "running"
      started_at := started_at, finished_at := none, checked_at := none
      valid := none, account_id := some 0 }
  let db1 : DB := { db with jobs := db.jobs ++ [row], nextJobId := job_id + 1 }
  let db2 : DB :=
    { db1 with
      jobs := db1.jobs.map (fun j =>
        if j.id == job_id then { j with profile_path := build_profile_path job_id }
        else j) }
  (db2, job_id, [(row.status, row.finished_at)])

/-- Python substring test `needle in hay` on strings. -/
def strContains (hay needle : String) : Bool :=
  decide (needle.data <:+: hay.data)

/-- A persisted cookie as seen through `storage_state()`; `cookie.get("name", "")`
treats a missing name as the empty string, so the name is optional. -/
structure Cookie where
  name : Option String
deriving DecidableEq

/-- What the headless Session Driver reconnection returns to the validity
check (spec §6 `openHeadless`): the final URL after loading `LOGIN_URL`
in the job's profile, and the persisted cookies. -/
structure HeadlessObs where
  finalUrl : String
  cookies : List Cookie
deriving DecidableEq

/-- The fixed authentication-indicator substrings from `check_login_valid`. -/
def authTokens : List String := ["session", "sid", "auth", "token"]

/-- `check_login_valid` from `app.py`, as a function of the headless
observations.  First component: the returned boolean.  Second component:
whether `context.close()` ran before returning (it is the unconditional
last statement of the `with` block, on both outcomes). -/
def check_login_valid (obs : HeadlessObs) : Bool × Bool :=
  let current_url := obs.finalUrl
  let logged_a : Bool := (!(current_url == LOGIN_URL)) && (!(strContains current_url "anmeldung"))
  let is_logged_in : Bool :=
    if logged_a then logged_a
    else
      let cookie_names := obs.cookies.map (fun c => (c.name.getD "").toLower)
      cookie_names.any (fun nm => authTokens.any (fun tok => strContains nm tok))
  (is_logged_in, true)

/-- `job.email.split("@")[0] if "@" in job.email else job.email` — the
display name derived in the promotion step. -/
def accountNameOf (email : String) : String :=
  if strContains email "@" then (email.splitOn "@").headD email else email

/-- How the interactive part (the `try` block of `login_with_playwright`)
ends: the human closes the window (`wait_for_event("close")` returns), or an
automation exception is raised before the `waiting_for_user` write (launch or
`goto` fails), or one is raised after it (during the wait). -/
inductive SessionOutcome where
  | closedByUser
  | raisedBeforeWait
  | raisedDuringWait
deriving DecidableEq

/-- `login_with_playwright` from `app.py`.  `outcome` describes how the
interactive session ends, `obs` the observations the headless validity check
(spec §6 adapter contract) returns, `tFinished`/`tChecked`/`tCreated` the
wall-clock strings taken at the `checking` write, at the validity-check
return, and at the account `INSERT`.  Returns the new database together with
the list of `(status, finished_at)` writes issued to the store.  The
`finally` block (the `checking` write, the validity check and the terminal
write) runs for every outcome, including both exception outcomes. -/
def login_with_playwright (db : DB) (job_id : Nat) (outcome : SessionOutcome)
    (obs : HeadlessObs) (tFinished tChecked tCreated : String) :
    DB × List (String × Option String) :=
  match fetch_login_job db job_id with
  | none => (db, [])
  | some job =>
    let afterTry : DB × List (String × Option String) :=
      match outcome with
      | .raisedBeforeWait => (db, [])
      | _ => (update_login_job db job.id "waiting_for_user" none none none none,
              [("waiting_for_user", none)])
    let db1 := update_login_job afterTry.1 job.id "checking" (some tFinished) none none none
    let log1 := afterTry.2 ++ [("checking", some tFinished)]
    let is_valid := (check_login_valid obs).1
    if is_valid then
      let account : Account :=
        { id := db1.nextAccountId, name := accountNameOf job.email, email := job.email
          age_days := 0, proxy := job.proxy, ios_profile := job.ios_profile
          profile_path := some job.profile_path, notes := some ""
          created_at := some tCreated, password := some job.password }
      let ins := insertAccount db1 account
      let db2 := update_login_job ins.1 job.id "valid" (some tChecked) (some tChecked)
        (some 1) (some (ins.2 : Int))
      (db2, log1 ++ [("valid", some tChecked)])
    else
      let db2 := update_login_job db1 job.id "invalid" (some tChecked) (some tChecked)
        (some 0) none
      (db2, log1 ++ [("invalid", some tChecked)])

/-- Full lifecycle of one submitted job: `create_login_job` followed by the
scheduled `login_with_playwright` workflow; the second component is the full
sequence of status writes the store sees for this job. -/
def submitAndRun (db : DB) (started_at email password proxy : String)
    (outcome : SessionOutcome) (obs : HeadlessObs)
    (tFinished tChecked tCreated : String) : DB × List (String × Option String) :=
  let c := create_login_job db started_at email password proxy
  let r := login_with_playwright c.1 c.2.1 outcome obs tFinished tChecked tCreated
  (r.1, c.2.2 ++ r.2)

/-- Python whitespace characters stripped by `str.strip()` (ASCII range). -/
def isPySpace (c : Char) : Bool :=
  c == ' ' || c == '\t' || c == '\n' || c == '\r' || c.toNat == 11 || c.toNat == 12

/-- Python `str.strip()`: remove leading and trailing whitespace. -/
def pyStrip (s : String) : String :=
  ⟨((s.data.dropWhile isPySpace).reverse.dropWhile isPySpace).reverse⟩

/-- JSON payload of `POST /api/login`; `payload.get(key)` yields `none` for a
missing key. -/
structure LoginPayload where
  email : Option String
  password : Option String
  proxy : Option String
deriving DecidableEq

/-- Response of the `login_account` endpoint: either the 400 validation
error, or the `{"status": "started", "job_id": ...}` success body. -/
inductive LoginResult where
  | badRequest (error : String)
  | started (job_id : Nat)
deriving DecidableEq

/-- `login_account` (`POST /api/login`) from `app.py`.  Returns the new
database, the HTTP response, and the list of job ids handed to
`start_login_thread` (the scheduled asynchronous workflows); the call itself
performs no browser work. -/
def login_account (db : DB) (payload : LoginPayload) (started_at : String) :
    DB × LoginResult × List Nat :=
  let email := pyStrip (payload.email.getD "")
  let password := pyStrip (payload.password.getD "")
  let proxy := pyStrip (payload.proxy.getD "")
  if email == "" || password == "" then
    (db, .badRequest "E-Mail und Passwort sind erforderlich.", [])
  else
    let c := create_login_job db started_at email password proxy
    (c.1, .started c.2.1, [c.2.1])

/-- `get_login_job` (`GET /api/login-jobs/<job_id>`) from `app.py`: `none`
is the 404 case, otherwise the JSON body
`(status, started_at, finished_at, checked_at, valid, account_id)`. -/
def get_login_job (db : DB) (job_id : Nat) :
    Option (String × String × Option String × Option String × Option Int × Option Int) :=
  (fetch_login_job db job_id).map
    (fun j => (j.status, j.started_at, j.finished_at, j.checked_at, j.valid, j.account_id))

/-- A Python `datetime` truncated to minutes (the only precision `init_db`
persists, via `isoformat(timespec="minutes")`). -/
structure PyDateTime where
  year : Int
  month : Nat
  day : Nat
  hour : Nat
  minute : Nat
deriving DecidableEq

/-- Days since 1970-01-01 of a proleptic Gregorian civil date (the calendar
Python's `datetime` arithmetic uses); standard era/year-of-era computation. -/
def daysFromCivil (year : Int) (month day : Nat) : Int :=
  let y : Int := if month ≤ 2 then year - 1 else year
  let era : Int := (if 0 ≤ y then y else y - 399) / 400
  let yoe : Int := y - era * 400
  let mp : Nat := (month + 9) % 12
  let doy : Int := ((153 * mp + 2) / 5 + day : Nat) - 1
  let doe : Int := yoe * 365 + yoe / 4 - yoe / 100 + doy
  era * 146097 + doe - 719468

/-- Civil date from days since 1970-01-01 (inverse of `daysFromCivil`). -/
def civilFromDays (z0 : Int) : Int × Nat × Nat :=
  let z : Int := z0 + 719468
  let era : Int := (if 0 ≤ z then z else z - 146096) / 146097
  let doe : Nat := (z - era * 146097).toNat
  let yoe : Nat := (doe - doe / 1460 + doe / 36524 - doe / 146096) / 365
  let y : Int := yoe + era * 400
  let doy : Nat := doe - (365 * yoe + yoe / 4 - yoe / 100)
  let mp : Nat := (5 * doy + 2) / 153
  let d : Nat := doy - (153 * mp + 2) / 5 + 1
  let m : Nat := if mp < 10 then mp + 3 else mp - 9
  (if m ≤ 2 then y + 1 else y, m, d)

/-- `now - datetime.timedelta(days=k)` (time of day unchanged). -/
def subDays (dt : PyDateTime) (k : Int) : PyDateTime :=
  let c := civilFromDays (daysFromCivil dt.year dt.month dt.day - k)
  { year := c.1, month := c.2.1, day := c.2.2, hour := dt.hour, minute := dt.minute }

/-- Left-pad a decimal string with zeros to the given width. -/
def padZeros (s : String) (w : Nat) : String :=
  ⟨List.replicate (w - s.data.length) '0' ++ s.data⟩

/-- Two-digit zero-padded field of an ISO timestamp. -/
def pad2 (n : Nat) : String := padZeros (natToString n) 2

/-- Python `datetime.isoformat(timespec="minutes")`:
`YYYY-MM-DDTHH:MM` (year zero-padded to four digits, sign for negative
years). -/
def isoMinutes (dt : PyDateTime) : String :=
  (if dt.year < 0 then "-" else "")
    ++ padZeros (natToString dt.year.natAbs) 4
    ++ "-" ++ pad2 dt.month ++ "-" ++ pad2 dt.day
    ++ "T" ++ pad2 dt.hour ++ ":" ++ pad2 dt.minute

theorem isoMinutes_ne_empty (dt : PyDateTime) : isoMinutes dt ≠ "" := by
  intro h
  have hlen := congrArg (fun s => s.data.length) h
  simp only [isoMinutes, String.data_append, List.length_append, List.length_nil] at hlen
  have h1 : (['-'] : List Char).length = 1 := rfl
  have h2 : (['T'] : List Char).length = 1 := rfl
  have h3 : ([':'] : List Char).length = 1 := rfl
  omega

/-- Python truthiness of a nullable SQLite TEXT value (`if not row[col]`):
true on SQL `NULL` and on the empty string. -/
def falsyStr (o : Option String) : Bool :=
  match o with
  | none => true
  | some s => s == ""

/-- One step of the column migration: `if column_name not in columns: ALTER
TABLE ... ADD COLUMN` for each wanted column, in order. -/
def addMissing (cols : List String) (wanted : List String) : List String :=
  wanted.foldl (fun acc c => if c ∈ acc then acc else acc ++ [c]) cols

/-- Column list of `CREATE TABLE IF NOT EXISTS accounts` in `init_db`. -/
def baseAccountCols : List String :=
  ["id", "name", "email", "age_days", "proxy", "ios_profile", "profile_path",
   "notes", "created_at", "password"]

/-- Column list of `CREATE TABLE IF NOT EXISTS login_jobs` in `init_db`. -/
def baseLoginJobCols : List String :=
  ["id", "account_id", "status", "started_at", "finished_at", "email",
   "password", "proxy", "ios_profile", "profile_path", "checked_at", "valid"]

/-- The columns `init_db` adds to `accounts` when missing. -/
def migrateAccountCols : List String := ["created_at", "profile_path", "password"]

/-- The columns `init_db` adds to `login_jobs` when missing. -/
def migrateLoginJobCols : List String :=
  ["email", "password", "proxy", "ios_profile", "profile_path", "checked_at", "valid"]

/-- Store state seen by `init_db`: the two table schemas (an empty column
list meaning the table does not exist yet) and the account rows the backfill
walks over. -/
structure StoreState where
  accountCols : List String
  loginJobCols : List String
  accounts : List Account
deriving DecidableEq

/-- The backfill loop body of `init_db` for one `accounts` row: compute the
`updates` dict (`created_at` from `now - timedelta(days=age_days)` when the
stored value is falsy, `profile_path` from the id when falsy), then issue the
`UPDATE ... SET col = COALESCE(?, col)` only when `updates` is non-empty. -/
def backfillAccountRow (now : PyDateTime) (r : Account) : Account :=
  let updCreated : Option String :=
    if falsyStr r.created_at then some (isoMinutes (subDays now r.age_days)) else none
  let updPath : Option String :=
    if falsyStr r.profile_path then some (build_profile_path r.id) else none
  if updCreated = none ∧ updPath = none then r
  else
    { r with
      created_at := coalesce updCreated r.created_at
      profile_path := coalesce updPath r.profile_path }

/-- `init_db` from `app.py` on the parts of the store it changes: create the
tables when absent, add the missing columns, backfill the derived `accounts`
columns. -/
def init_db (now : PyDateTime) (st : StoreState) : StoreState :=
  let accountCols := if st.accountCols.isEmpty then baseAccountCols else st.accountCols
  let loginJobCols := if st.loginJobCols.isEmpty then baseLoginJobCols else st.loginJobCols
  let accountCols := addMissing accountCols migrateAccountCols
  let loginJobCols := addMissing loginJobCols migrateLoginJobCols
  { accountCols := accountCols
    loginJobCols := loginJobCols
    accounts := st.accounts.map (backfillAccountRow now) }

theorem find_map_update (jobs : List LoginJob) (n : Nat) (f : LoginJob → LoginJob)
    (hf : ∀ j, (f j).id = j.id) :
    (jobs.map (fun j => if j.id == n then f j else j)).find? (fun j => j.id == n)
      = (jobs.find? (fun j => j.id == n)).map f := by
  induction jobs with
  | nil => rfl
  | cons a l ih =>
    simp only [List.map_cons]
    by_cases hb : a.id = n
    · rw [if_pos (by simpa using hb)]
      rw [List.find?_cons_of_pos _ (by simp [hf, hb]),
        List.find?_cons_of_pos _ (by simp [hb])]
      rfl
    · rw [if_neg (by simpa using hb)]
      rw [List.find?_cons_of_neg _ (by simp [hb]),
        List.find?_cons_of_neg _ (by simp [hb]), ih]

theorem find_append_fresh (jobs : List LoginJob) (row : LoginJob) (n : Nat)
    (h : ∀ j ∈ jobs, j.id ≠ n) (hrow : row.id = n) :
    (jobs ++ [row]).find? (fun j => j.id == n) = some row := by
  induction jobs with
  | nil => exact List.find?_cons_of_pos _ (by simp [hrow])
  | cons a l ih =>
    rw [List.cons_append,
      List.find?_cons_of_neg _ (by simp [h a (by simp)])]
    exact ih (fun j hj => h j (by simp [hj]))

theorem map_update_fresh (jobs : List LoginJob) (n : Nat) (g : LoginJob → LoginJob)
    (h : ∀ j ∈ jobs, j.id ≠ n) :
    jobs.map (fun j => if j.id == n then g j else j) = jobs := by
  induction jobs with
  | nil => rfl
  | cons a l ih =>
    rw [List.map_cons, if_neg (by simp [h a (by simp)]),
      ih (fun j hj => h j (by simp [hj]))]

theorem fetch_id {db : DB} {n : Nat} {j : LoginJob}
    (h : fetch_login_job db n = some j) : j.id = n := by
  have := List.find?_some h
  simpa using this

theorem fetch_update_login_job (db : DB) (n : Nat) (s : String)
    (f c : Option String) (v a : Option Int) :
    fetch_login_job (update_login_job db n s f c v a) n
      = (fetch_login_job db n).map (applyUpdate s f c v a) :=
  find_map_update db.jobs n _ (fun _ => rfl)

theorem fetch_insertAccount (db : DB) (acc : Account) (n : Nat) :
    fetch_login_job (insertAccount db acc).1 n = fetch_login_job db n := rfl

/-- The job row as it stands when `create_login_job` returns (inserted in
`running`, then its profile path persisted). -/
def createdRow (db : DB) (started_at email password proxy : String) : LoginJob :=
  { id := db.nextJobId, email := email, password := password, proxy := proxy
    ios_profile := "iPhone 13", profile_path := build_profile_path db.nextJobId
    status := "running", started_at := started_at, finished_at := none
    checked_at := none, valid := none, account_id := some 0 }

theorem create_login_job_jobs (db : DB) (hWF : WF db) (s e p pr : String) :
    (create_login_job db s e p pr).1.jobs = db.jobs ++ [createdRow db s e p pr] := by
  show (db.jobs ++ [_]).map _ = _
  rw [List.map_append,
    map_update_fresh db.jobs db.nextJobId _ (fun j hj => Nat.ne_of_lt (hWF j hj)),
    List.map_cons]
  rw [if_pos (by simp)]
  rfl

theorem fetch_create (db : DB) (hWF : WF db) (s e p pr : String) :
    fetch_login_job (create_login_job db s e p pr).1 (create_login_job db s e p pr).2.1
      = some (createdRow db s e p pr) := by
  show ((create_login_job db s e p pr).1.jobs).find? (fun j => j.id == db.nextJobId) = _
  rw [create_login_job_jobs db hWF]
  exact find_append_fresh db.jobs _ db.nextJobId
    (fun j hj => Nat.ne_of_lt (hWF j hj)) rfl

theorem create_accounts (db : DB) (s e p pr : String) :
    (create_login_job db s e p pr).1.accounts = db.accounts := rfl

theorem create_nextAccountId (db : DB) (s e p pr : String) :
    (create_login_job db s e p pr).1.nextAccountId = db.nextAccountId := rfl

theorem create_log (db : DB) (s e p pr : String) :
    (create_login_job db s e p pr).2.2 = [("running", none)] := rfl

theorem pyStrip_all_space {s : String} (h : ∀ c ∈ s.data, isPySpace c) :
    pyStrip s = "" := by
  unfold pyStrip
  rw [List.dropWhile_eq_nil_iff.mpr (fun c hc => h c hc)]
  rfl

theorem mem_addMissing (cs wanted : List String) (c : String) (h : c ∈ cs) :
    c ∈ addMissing cs wanted := by
  induction wanted generalizing cs with
  | nil => exact h
  | cons x xs ih =>
    show c ∈ List.foldl _ (if x ∈ cs then cs else cs ++ [x]) xs
    by_cases hx : x ∈ cs
    · rw [if_pos hx]; exact ih cs h
    · rw [if_neg hx]; exact ih (cs ++ [x]) (by simp [h])

theorem mem_addMissing_wanted (cs wanted : List String) :
    ∀ c ∈ wanted, c ∈ addMissing cs wanted := by
  induction wanted generalizing cs with
  | nil => intro c hc; cases hc
  | cons x xs ih =>
    intro c hc
    show c ∈ List.foldl _ (if x ∈ cs then cs else cs ++ [x]) xs
    rcases List.mem_cons.mp hc with hcx | hcxs
    · subst hcx
      by_cases hx : c ∈ cs
      · rw [if_pos hx]; exact mem_addMissing cs xs c hx
      · rw [if_neg hx]; exact mem_addMissing _ xs c (by simp)
    · by_cases hx : x ∈ cs
      · rw [if_pos hx]; exact ih cs c hcxs
      · rw [if_neg hx]; exact ih (cs ++ [x]) c hcxs

theorem addMissing_eq_self (cs wanted : List String) (h : ∀ c ∈ wanted, c ∈ cs) :
    addMissing cs wanted = cs := by
  induction wanted generalizing cs with
  | nil => rfl
  | cons x xs ih =>
    show List.foldl _ (if x ∈ cs then cs else cs ++ [x]) xs = cs
    rw [if_pos (h x (by simp))]
    exact ih cs (fun c hc => h c (by simp [hc]))

theorem addMissing_append (cs wanted : List String) :
    ∃ t, addMissing cs wanted = cs ++ t := by
  induction wanted generalizing cs with
  | nil => exact ⟨[], (List.append_nil cs).symm⟩
  | cons x xs ih =>
    show ∃ t, List.foldl _ (if x ∈ cs then cs else cs ++ [x]) xs = cs ++ t
    by_cases hx : x ∈ cs
    · rw [if_pos hx]; exact ih cs
    · rw [if_neg hx]
      obtain ⟨t, ht⟩ := ih (cs ++ [x])
      refine ⟨[x] ++ t, ?_⟩
      show addMissing (cs ++ [x]) xs = cs ++ ([x] ++ t)
      rw [ht, List.append_assoc]

theorem addMissing_ne_nil {cs : List String} (wanted : List String) (h : cs ≠ []) :
    addMissing cs wanted ≠ [] := by
  obtain ⟨t, ht⟩ := addMissing_append cs wanted
  rw [ht]
  intro hcontra
  exact h (List.append_eq_nil.mp hcontra).1

theorem addMissing_idem (cs wanted : List String) :
    addMissing (addMissing cs wanted) wanted = addMissing cs wanted :=
  addMissing_eq_self _ _ (mem_addMissing_wanted cs wanted)

theorem falsy_isoMinutes (dt : PyDateTime) : falsyStr (some (isoMinutes dt)) = false := by
  simp [falsyStr, isoMinutes_ne_empty dt]

theorem falsy_build_profile_path (n : Nat) :
    falsyStr (some (build_profile_path n)) = false := by
  simp [falsyStr, build_profile_path_ne_empty n]

theorem backfill_idem (n1 n2 : PyDateTime) (r : Account) :
    backfillAccountRow n2 (backfillAccountRow n1 r) = backfillAccountRow n1 r := by
  by_cases hc : falsyStr r.created_at <;> by_cases hp : falsyStr r.profile_path <;>
    simp [backfillAccountRow, hc, hp, coalesce, falsy_isoMinutes, falsy_build_profile_path]

theorem backfill_keeps_filled (now : PyDateTime) (r : Account)
    (hc : falsyStr r.created_at = false) (hp : falsyStr r.profile_path = false) :
    backfillAccountRow now r = r := by
  simp [backfillAccountRow, hc, hp]

theorem isEmpty_false_of_ne_nil {α : Type} {l : List α} (h : l ≠ []) :
    l.isEmpty = false := by
  cases l with
  | nil => exact absurd rfl h
  | cons a t => rfl

theorem map_backfill_idem (n1 n2 : PyDateTime) (l : List Account) :
    (l.map (backfillAccountRow n1)).map (backfillAccountRow n2)
      = l.map (backfillAccountRow n1) := by
  induction l with
  | nil => rfl
  | cons a t ih => simp [backfill_idem, ih]

theorem init_db_idem (n1 n2 : PyDateTime) (st : StoreState) :
    init_db n2 (init_db n1 st) = init_db n1 st := by
  have hA : addMissing (if st.accountCols.isEmpty then baseAccountCols else st.accountCols)
      migrateAccountCols ≠ [] := by
    apply addMissing_ne_nil
    by_cases h : st.accountCols.isEmpty
    · rw [if_pos h]; decide
    · rw [if_neg h]; intro hn; exact h (by rw [hn]; rfl)
  have hL : addMissing (if st.loginJobCols.isEmpty then baseLoginJobCols else st.loginJobCols)
      migrateLoginJobCols ≠ [] := by
    apply addMissing_ne_nil
    by_cases h : st.loginJobCols.isEmpty
    · rw [if_pos h]; decide
    · rw [if_neg h]; intro hn; exact h (by rw [hn]; rfl)
  have hA' : ¬((addMissing (if st.accountCols.isEmpty then baseAccountCols
      else st.accountCols) migrateAccountCols).isEmpty = true) := by
    rw [isEmpty_false_of_ne_nil hA]; exact Bool.false_ne_true
  have hL' : ¬((addMissing (if st.loginJobCols.isEmpty then baseLoginJobCols
      else st.loginJobCols) migrateLoginJobCols).isEmpty = true) := by
    rw [isEmpty_false_of_ne_nil hL]; exact Bool.false_ne_true
  unfold init_db
  dsimp only
  rw [if_neg hA', if_neg hL', addMissing_idem, addMissing_idem, map_backfill_idem]

/-- C9: running the startup migration and backfill twice in a row yields the
same store state as running it once — the second run adds no columns, a
non-falsy `created_at` or `profile_path` is never overwritten, and a row with
both derived columns filled is not written at all. -/
theorem migrationIdempotent (now1 now2 : PyDateTime) (st : StoreState) (r : Account) :
    init_db now2 (init_db now1 st) = init_db now1 st
    ∧ (init_db now2 (init_db now1 st)).accountCols = (init_db now1 st).accountCols
    ∧ (falsyStr r.created_at = false →
        (backfillAccountRow now2 r).created_at = r.created_at)
    ∧ (falsyStr r.profile_path = false →
        (backfillAccountRow now2 r).profile_path = r.profile_path)
    ∧ (falsyStr r.created_at = false → falsyStr r.profile_path = false →
        backfillAccountRow now2 r = r) := by
  refine ⟨init_db_idem now1 now2 st, congrArg StoreState.accountCols (init_db_idem now1 now2 st),
    ?_, ?_, fun hc hp => backfill_keeps_filled now2 r hc hp⟩
  · intro hc
    by_cases hp : falsyStr r.profile_path <;> simp [backfillAccountRow, hc, hp, coalesce]
  · intro hp
    by_cases hc : falsyStr r.created_at <;> simp [backfillAccountRow, hc, hp, coalesce]

/-- A concrete wall-clock instant for witnesses. -/
def dtA : PyDateTime := { year := 2024, month := 5, day := 17, hour := 9, minute := 30 }

/-- A second, different wall-clock instant for witnesses. -/
def dtB : PyDateTime := { year := 2025, month := 1, day := 2, hour := 23, minute := 5 }

/-- A concrete legacy store state for witnesses: one account row with both
derived columns missing, one with both filled. -/
def stW : StoreState :=
  { accountCols := ["id", "name", "email", "age_days", "proxy", "ios_profile", "notes"]
    loginJobCols := []
    accounts :=
      [{ id := 1, name := "alt", email := "alt@example.com", age_days := 12
         proxy := "", ios_profile := "iPhone 13", profile_path := none
         notes := none, created_at := none, password := none },
       { id := 2, name := "neu", email := "neu@example.com", age_days := 0
         proxy := "", ios_profile := "iPhone 13"
         profile_path := some "data/profiles/account_2"
         notes := some "", created_at := some "2024-01-01T00:00"
         password := some "pw" }] }

/-- A concrete filled account row for witnesses. -/
def rW : Account :=
  { id := 2, name := "neu", email := "neu@example.com", age_days := 0
    proxy := "", ios_profile := "iPhone 13"
    profile_path := some "data/profiles/account_2"
    notes := some "", created_at := some "2024-01-01T00:00", password := some "pw" }

theorem migrationIdempotent_witness :
    init_db dtB (init_db dtA stW) = init_db dtA stW
    ∧ (backfillAccountRow dtB rW).created_at = rW.created_at
    ∧ backfillAccountRow dtB rW = rW :=
  ⟨(migrationIdempotent dtA dtB stW rW).1,
   (migrationIdempotent dtA dtB stW rW).2.2.1 (by decide),
   (migrationIdempotent dtA dtB stW rW).2.2.2.2 (by decide) (by decide)⟩

/-- The account row inserted by the promotion step, in terms of the fetched
job and the database at workflow start. -/
def promotedAccount (db : DB) (job : LoginJob) (tCreated : String) : Account :=
  { id := db.nextAccountId, name := accountNameOf job.email, email := job.email
    age_days := 0, proxy := job.proxy, ios_profile := job.ios_profile
    profile_path := some job.profile_path, notes := some ""
    created_at := some tCreated, password := some job.password }

theorem update_accounts (db : DB) (n : Nat) (s : String) (f c : Option String)
    (v a : Option Int) : (update_login_job db n s f c v a).accounts = db.accounts := rfl

theorem update_nextAccountId (db : DB) (n : Nat) (s : String) (f c : Option String)
    (v a : Option Int) :
    (update_login_job db n s f c v a).nextAccountId = db.nextAccountId := rfl

theorem insert_accounts (db : DB) (acc : Account) :
    (insertAccount db acc).1.accounts = db.accounts ++ [acc] := rfl

theorem insert_snd (db : DB) (acc : Account) : (insertAccount db acc).2 = db.nextAccountId := rfl

theorem run_log (db : DB) (job_id : Nat) (job : LoginJob) (o : SessionOutcome)
    (obs : HeadlessObs) (t1 t2 t3 : String)
    (h : fetch_login_job db job_id = some job) :
    (login_with_playwright db job_id o obs t1 t2 t3).2
      = (if o = .raisedBeforeWait then [] else [("waiting_for_user", none)])
        ++ [("checking", some t1)]
        ++ [((if (check_login_valid obs).1 then "valid" else "invalid"), some t2)] := by
  cases o <;> cases hcv : (check_login_valid obs).1 <;>
    simp [login_with_playwright, h, hcv]

theorem run_accounts (db : DB) (job_id : Nat) (job : LoginJob) (o : SessionOutcome)
    (obs : HeadlessObs) (t1 t2 t3 : String)
    (h : fetch_login_job db job_id = some job) :
    (login_with_playwright db job_id o obs t1 t2 t3).1.accounts
      = if (check_login_valid obs).1 then db.accounts ++ [promotedAccount db job t3]
        else db.accounts := by
  cases o <;> cases hcv : (check_login_valid obs).1 <;>
    simp [login_with_playwright, h, hcv, update_accounts, update_nextAccountId,
      insert_accounts, promotedAccount]

theorem run_fetch (db : DB) (job_id : Nat) (job : LoginJob) (o : SessionOutcome)
    (obs : HeadlessObs) (t1 t2 t3 : String)
    (h : fetch_login_job db job_id = some job) :
    fetch_login_job (login_with_playwright db job_id o obs t1 t2 t3).1 job_id
      = some (if (check_login_valid obs).1 then
          { job with
            status := "valid"
            finished_at := some t2
            checked_at := some t2
            valid := some 1
            account_id := some (db.nextAccountId : Int) }
        else
          { job with
            status := "invalid"
            finished_at := some t2
            checked_at := some t2
            valid := some 0 }) := by
  have hid : job.id = job_id := fetch_id h
  cases o <;> cases hcv : (check_login_valid obs).1 <;>
    simp [login_with_playwright, h, hcv, hid, fetch_update_login_job, fetch_insertAccount,
      insert_snd, update_nextAccountId, applyUpdate, coalesce]

/-- C6: `update_login_job` has set-if-provided semantics — for each of
`finished_at`, `checked_at`, `valid` and `account_id`, passing no new value
leaves the stored column unchanged; in particular the `waiting_for_user`
transition changes only the status field. -/
theorem updateFrameSpec (db : DB) (n : Nat) (s : String) (f c : Option String)
    (v a : Option Int) :
    (f = none →
      (fetch_login_job (update_login_job db n s f c v a) n).map (fun j => j.finished_at)
        = (fetch_login_job db n).map (fun j => j.finished_at))
    ∧ (c = none →
      (fetch_login_job (update_login_job db n s f c v a) n).map (fun j => j.checked_at)
        = (fetch_login_job db n).map (fun j => j.checked_at))
    ∧ (v = none →
      (fetch_login_job (update_login_job db n s f c v a) n).map (fun j => j.valid)
        = (fetch_login_job db n).map (fun j => j.valid))
    ∧ (a = none →
      (fetch_login_job (update_login_job db n s f c v a) n).map (fun j => j.account_id)
        = (fetch_login_job db n).map (fun j => j.account_id))
    ∧ (∀ j, fetch_login_job db n = some j →
      fetch_login_job (update_login_job db n "waiting_for_user" none none none none) n
        = some { j with status := "waiting_for_user" }) := by
  refine ⟨?_, ?_, ?_, ?_, ?_⟩
  · intro hf; subst hf
    rw [fetch_update_login_job]
    cases fetch_login_job db n <;> simp [applyUpdate, coalesce]
  · intro hc; subst hc
    rw [fetch_update_login_job]
    cases fetch_login_job db n <;> simp [applyUpdate, coalesce]
  · intro hv; subst hv
    rw [fetch_update_login_job]
    cases fetch_login_job db n <;> simp [applyUpdate, coalesce]
  · intro ha; subst ha
    rw [fetch_update_login_job]
    cases fetch_login_job db n <;> simp [applyUpdate, coalesce]
  · intro j hj
    rw [fetch_update_login_job, hj]
    simp [applyUpdate, coalesce]

/-- A concrete stored job row for witnesses. -/
def jobW : LoginJob :=
  { id := 1, email := "user@example.com", password := "pw", proxy := ""
    ios_profile := "iPhone 13", profile_path := "data/profiles/account_1"
    status := "running", started_at := "2024-05-17 09:30", finished_at := none
    checked_at := none, valid := none, account_id := some 0 }

/-- A concrete one-job database for witnesses. -/
def dbW : DB := { jobs := [jobW], accounts := [], nextJobId := 2, nextAccountId := 1 }

/-- An empty database for witnesses. -/
def dbE : DB := { jobs := [], accounts := [], nextJobId := 1, nextAccountId := 1 }

theorem updateFrameSpec_witness :
    ((fetch_login_job (update_login_job dbW 1 "checking" none (some "t") none none) 1).map
        (fun j => j.finished_at)
      = (fetch_login_job dbW 1).map (fun j => j.finished_at))
    ∧ fetch_login_job (update_login_job dbW 1 "waiting_for_user" none none none none) 1
        = some { jobW with status := "waiting_for_user" } :=
  ⟨(updateFrameSpec dbW 1 "checking" none (some "t") none none).1 rfl,
   (updateFrameSpec dbW 1 "waiting_for_user" none none none none).2.2.2.2 jobW rfl⟩

/-- C7: the profile path of identifier `N` is exactly
`PROFILE_DIR ++ "/account_" ++ N` (deterministic by construction), the map is
injective (no two distinct ids collide on disk), and the orchestrator's
promotion step stores the job's own path in the new account row rather than
deriving a fresh one from the account id. -/
theorem profilePathSpec (m n : Nat) (db : DB) (job_id : Nat) (job : LoginJob)
    (o : SessionOutcome) (obs : HeadlessObs) (t1 t2 t3 : String) :
    build_profile_path n = PROFILE_DIR ++ "/account_" ++ natToString n
    ∧ (build_profile_path m = build_profile_path n → m = n)
    ∧ (fetch_login_job db job_id = some job →
       ∀ acc ∈ (login_with_playwright db job_id o obs t1 t2 t3).1.accounts,
         acc ∈ db.accounts ∨ acc.profile_path = some job.profile_path) := by
  refine ⟨rfl, fun h => build_profile_path_injective h, fun h acc hacc => ?_⟩
  rw [run_accounts db job_id job o obs t1 t2 t3 h] at hacc
  by_cases hcv : (check_login_valid obs).1
  · rw [if_pos hcv] at hacc
    rcases List.mem_append.mp hacc with hl | hr
    · exact Or.inl hl
    · right
      have : acc = promotedAccount db job t3 := by simpa using hr
      rw [this]; rfl
  · rw [if_neg hcv] at hacc
    exact Or.inl hacc

theorem profilePathSpec_witness :
    build_profile_path 7 = PROFILE_DIR ++ "/account_" ++ natToString 7
    ∧ (7 : Nat) = 7
    ∧ (∀ acc ∈ (login_with_playwright dbW 1 SessionOutcome.closedByUser
          { finalUrl := LOGIN_URL, cookies := [] } "t1" "t2" "t3").1.accounts,
        acc ∈ dbW.accounts ∨ acc.profile_path = some jobW.profile_path) :=
  ⟨(profilePathSpec 7 7 dbW 1 jobW SessionOutcome.closedByUser
      { finalUrl := LOGIN_URL, cookies := [] } "t1" "t2" "t3").1,
   (profilePathSpec 7 7 dbW 1 jobW SessionOutcome.closedByUser
      { finalUrl := LOGIN_URL, cookies := [] } "t1" "t2" "t3").2.1 rfl,
   (profilePathSpec 7 7 dbW 1 jobW SessionOutcome.closedByUser
      { finalUrl := LOGIN_URL, cookies := [] } "t1" "t2" "t3").2.2 rfl⟩

/-- C2: for an existing job, the workflow always runs the `finally` path —
whatever the session outcome (including an automation exception before or
after the `waiting_for_user` write), the store receives a `checking` write
carrying a finished timestamp followed by a terminal write, the workflow
returns normally (the error never propagates to the submitter), and the job
ends in `valid`/`invalid` with `finished_at` and `checked_at` set, never
stuck in `running` or `waiting_for_user`.  The headless validity check is
modelled by the observations the §6 adapter contract returns. -/
theorem errorFunnelsToTerminal (db : DB) (job_id : Nat) (job : LoginJob)
    (o : SessionOutcome) (obs : HeadlessObs) (t1 t2 t3 : String)
    (h : fetch_login_job db job_id = some job) :
    ((login_with_playwright db job_id o obs t1 t2 t3).2
        = [("waiting_for_user", none), ("checking", some t1),
           ((if (check_login_valid obs).1 then "valid" else "invalid"), some t2)]
      ∨ (login_with_playwright db job_id o obs t1 t2 t3).2
        = [("checking", some t1),
           ((if (check_login_valid obs).1 then "valid" else "invalid"), some t2)])
    ∧ (fetch_login_job (login_with_playwright db job_id o obs t1 t2 t3).1 job_id).map
        (fun j => (j.status, j.finished_at, j.checked_at))
      = some ((if (check_login_valid obs).1 then "valid" else "invalid"), some t2, some t2) := by
  constructor
  · rw [run_log db job_id job o obs t1 t2 t3 h]
    cases o <;> simp
  · rw [run_fetch db job_id job o obs t1 t2 t3 h]
    cases hcv : (check_login_valid obs).1 <;> simp [hcv]

/-- Headless observations still on the login page with no cookies (the
validity check fails on them). -/
def obsStuck : HeadlessObs := { finalUrl := LOGIN_URL, cookies := [] }

/-- Headless observations redirected away from the login page (the validity
check succeeds on them). -/
def obsAway : HeadlessObs := { finalUrl := "https://www.kleinanzeigen.de/", cookies := [] }

theorem errorFunnelsToTerminal_witness :
    ((login_with_playwright dbW 1 SessionOutcome.raisedBeforeWait obsStuck "t1" "t2" "t3").2
        = [("waiting_for_user", none), ("checking", some "t1"),
           ((if (check_login_valid obsStuck).1 then "valid" else "invalid"), some "t2")]
      ∨ (login_with_playwright dbW 1 SessionOutcome.raisedBeforeWait obsStuck "t1" "t2" "t3").2
        = [("checking", some "t1"),
           ((if (check_login_valid obsStuck).1 then "valid" else "invalid"), some "t2")])
    ∧ (fetch_login_job
          (login_with_playwright dbW 1 SessionOutcome.raisedBeforeWait obsStuck "t1" "t2" "t3").1 1).map
        (fun j => (j.status, j.finished_at, j.checked_at))
      = some ((if (check_login_valid obsStuck).1 then "valid" else "invalid"),
          some "t2", some "t2") :=
  errorFunnelsToTerminal dbW 1 jobW SessionOutcome.raisedBeforeWait obsStuck "t1" "t2" "t3" rfl

/-- C3: when the validity check succeeds the workflow appends exactly one
account row copying the job's email, proxy, device profile, profile path and
password, with display name the local part of the email (the whole email
when it has no `@`) and age 0, and marks the job `valid` with `valid = 1`,
`checked_at` set and `account_id` the new account's id; when it fails, no
account row is created and the job is marked `invalid` with `valid = 0` and
`checked_at` set. -/
theorem promotionSpec (db : DB) (job_id : Nat) (job : LoginJob) (o : SessionOutcome)
    (obs : HeadlessObs) (t1 t2 t3 : String)
    (h : fetch_login_job db job_id = some job) :
    ((check_login_valid obs).1 = true →
      (login_with_playwright db job_id o obs t1 t2 t3).1.accounts
        = db.accounts
          ++ [{ id := db.nextAccountId
                name := if strContains job.email "@" then (job.email.splitOn "@").headD job.email
                        else job.email
                email := job.email, age_days := 0, proxy := job.proxy
                ios_profile := job.ios_profile, profile_path := some job.profile_path
                notes := some "", created_at := some t3, password := some job.password }]
      ∧ (fetch_login_job (login_with_playwright db job_id o obs t1 t2 t3).1 job_id).map
          (fun j => (j.status, j.valid, j.checked_at, j.account_id))
        = some ("valid", some 1, some t2, some (db.nextAccountId : Int)))
    ∧ ((check_login_valid obs).1 = false →
      (login_with_playwright db job_id o obs t1 t2 t3).1.accounts = db.accounts
      ∧ (fetch_login_job (login_with_playwright db job_id o obs t1 t2 t3).1 job_id).map
          (fun j => (j.status, j.valid, j.checked_at))
        = some ("invalid", some 0, some t2)) := by
  constructor <;> intro hcv
  · refine ⟨?_, ?_⟩
    · rw [run_accounts db job_id job o obs t1 t2 t3 h, if_pos hcv]
      simp [promotedAccount, accountNameOf]
    · rw [run_fetch db job_id job o obs t1 t2 t3 h, if_pos hcv]
      rfl
  · refine ⟨?_, ?_⟩
    · rw [run_accounts db job_id job o obs t1 t2 t3 h, if_neg (by simp [hcv])]
    · rw [run_fetch db job_id job o obs t1 t2 t3 h, if_neg (by simp [hcv])]
      rfl

theorem promotionSpec_witness :
    ((login_with_playwright dbW 1 SessionOutcome.closedByUser obsAway "t1" "t2" "t3").1.accounts
      = dbW.accounts
        ++ [{ id := dbW.nextAccountId
              name := if strContains jobW.email "@" then (jobW.email.splitOn "@").headD jobW.email
                      else jobW.email
              email := jobW.email, age_days := 0, proxy := jobW.proxy
              ios_profile := jobW.ios_profile, profile_path := some jobW.profile_path
              notes := some "", created_at := some "t3", password := some jobW.password }])
    ∧ ((login_with_playwright dbW 1 SessionOutcome.closedByUser obsStuck "t1" "t2" "t3").1.accounts
        = dbW.accounts) :=
  ⟨((promotionSpec dbW 1 jobW SessionOutcome.closedByUser obsAway "t1" "t2" "t3" rfl).1
      (by decide)).1,
   ((promotionSpec dbW 1 jobW SessionOutcome.closedByUser obsStuck "t1" "t2" "t3" rfl).2
      (by decide)).1⟩

/-- C8 counterexample: a freshly created job is in status `running` (not
`valid`), yet its stored and endpoint-reported linked account identifier is
the integer 0, not SQL `NULL` — refuting "the linked account identifier is
null from job creation" and "the status endpoint reports a null account_id
for every job that has not reached status valid". -/
theorem accountIdNullCounterexample :
    (get_login_job (create_login_job dbE "2024-05-17 09:30" "user@example.com" "pw" "").1
        (create_login_job dbE "2024-05-17 09:30" "user@example.com" "pw" "").2.1).map
      (fun t => (t.1, t.2.2.2.2.2)) = some ("running", some 0)
    ∧ (some (0 : Int) : Option Int) ≠ none := by
  exact ⟨rfl, by decide⟩

/-- C8 (amended): the linked account identifier is the sentinel `0` (not
null) from job creation until validation succeeds — the `waiting_for_user`,
`checking` and `invalid` writes all leave it at `0` — and it is set to the
new account's id exactly on success; the status endpoint reports the stored
value verbatim, so a job that has not reached `valid` reports `0`. -/
theorem accountIdLifecycle (db : DB) (hWF : WF db) (s e p pr : String)
    (o : SessionOutcome) (obs : HeadlessObs) (t1 t2 t3 : String) :
    (fetch_login_job (create_login_job db s e p pr).1 (create_login_job db s e p pr).2.1).map
        (fun j => j.account_id) = some (some 0)
    ∧ (get_login_job (create_login_job db s e p pr).1 (create_login_job db s e p pr).2.1).map
        (fun t => t.2.2.2.2.2) = some (some 0)
    ∧ (fetch_login_job
          (login_with_playwright (create_login_job db s e p pr).1
            (create_login_job db s e p pr).2.1 o obs t1 t2 t3).1
          (create_login_job db s e p pr).2.1).map (fun j => j.account_id)
      = some (some (if (check_login_valid obs).1 then (db.nextAccountId : Int) else 0)) := by
  have hc := fetch_create db hWF s e p pr
  refine ⟨by rw [hc]; rfl, ?_, ?_⟩
  · unfold get_login_job
    rw [hc]
    rfl
  · rw [run_fetch _ _ _ o obs t1 t2 t3 hc]
    cases hcv : (check_login_valid obs).1 <;> simp [hcv, createdRow, create_nextAccountId]

theorem accountIdLifecycle_witness :
    (fetch_login_job (create_login_job dbE "t0" "user@example.com" "pw" "").1
        (create_login_job dbE "t0" "user@example.com" "pw" "").2.1).map
        (fun j => j.account_id) = some (some 0)
    ∧ (fetch_login_job
          (login_with_playwright (create_login_job dbE "t0" "user@example.com" "pw" "").1
            (create_login_job dbE "t0" "user@example.com" "pw" "").2.1
            SessionOutcome.closedByUser obsStuck "t1" "t2" "t3").1
          (create_login_job dbE "t0" "user@example.com" "pw" "").2.1).map
        (fun j => j.account_id)
      = some (some (if (check_login_valid obsStuck).1 then (dbE.nextAccountId : Int) else 0)) :=
  ⟨(accountIdLifecycle dbE (by intro j hj; cases hj) "t0" "user@example.com" "pw" ""
      SessionOutcome.closedByUser obsStuck "t1" "t2" "t3").1,
   (accountIdLifecycle dbE (by intro j hj; cases hj) "t0" "user@example.com" "pw" ""
      SessionOutcome.closedByUser obsStuck "t1" "t2" "t3").2.2⟩

/-- C1: over a job's whole lifetime the sequence of statuses written to the
store starts with `running` at creation and is a subsequence of
`running, waiting_for_user, checking, {valid | invalid}` — `checking` is
present before the terminal status, no status repeats, no transition goes
backward, and the terminal status is the last write. -/
theorem statusTraceSpec (db : DB) (hWF : WF db) (s e p pr : String)
    (o : SessionOutcome) (obs : HeadlessObs) (t1 t2 t3 : String) :
    ((submitAndRun db s e p pr o obs t1 t2 t3).2.map Prod.fst).head? = some "running"
    ∧ List.Sublist ((submitAndRun db s e p pr o obs t1 t2 t3).2.map Prod.fst)
        ["running", "waiting_for_user", "checking",
         if (check_login_valid obs).1 then "valid" else "invalid"]
    ∧ ((submitAndRun db s e p pr o obs t1 t2 t3).2.map Prod.fst).Nodup
    ∧ "checking" ∈ (submitAndRun db s e p pr o obs t1 t2 t3).2.map Prod.fst
    ∧ ((submitAndRun db s e p pr o obs t1 t2 t3).2.map Prod.fst).getLast?
        = some (if (check_login_valid obs).1 then "valid" else "invalid") := by
  have hc := fetch_create db hWF s e p pr
  have hlog := run_log _ _ _ o obs t1 t2 t3 hc
  have htr : (submitAndRun db s e p pr o obs t1 t2 t3).2
      = [("running", (none : Option String))]
        ++ ((if o = .raisedBeforeWait then [] else [("waiting_for_user", none)])
            ++ [("checking", some t1)]
            ++ [((if (check_login_valid obs).1 then "valid" else "invalid"), some t2)]) := by
    show (create_login_job db s e p pr).2.2
        ++ (login_with_playwright (create_login_job db s e p pr).1
            (create_login_job db s e p pr).2.1 o obs t1 t2 t3).2 = _
    rw [create_log, hlog]
  rw [htr]
  cases o <;> cases hcv : (check_login_valid obs).1 <;> simp [hcv]

theorem statusTraceSpec_witness :
    ((submitAndRun dbE "t0" "user@example.com" "pw" "" SessionOutcome.closedByUser obsAway
        "t1" "t2" "t3").2.map Prod.fst).head? = some "running"
    ∧ List.Sublist ((submitAndRun dbE "t0" "user@example.com" "pw" "" SessionOutcome.closedByUser
          obsAway "t1" "t2" "t3").2.map Prod.fst)
        ["running", "waiting_for_user", "checking",
         if (check_login_valid obsAway).1 then "valid" else "invalid"]
    ∧ ((submitAndRun dbE "t0" "user@example.com" "pw" "" SessionOutcome.closedByUser obsAway
        "t1" "t2" "t3").2.map Prod.fst).Nodup
    ∧ "checking" ∈ (submitAndRun dbE "t0" "user@example.com" "pw" "" SessionOutcome.closedByUser
        obsAway "t1" "t2" "t3").2.map Prod.fst
    ∧ ((submitAndRun dbE "t0" "user@example.com" "pw" "" SessionOutcome.closedByUser obsAway
        "t1" "t2" "t3").2.map Prod.fst).getLast?
      = some (if (check_login_valid obsAway).1 then "valid" else "invalid") :=
  statusTraceSpec dbE (by intro j hj; cases hj) "t0" "user@example.com" "pw" ""
    SessionOutcome.closedByUser obsAway "t1" "t2" "t3"

theorem login_account_reject (db : DB) (pl : LoginPayload) (t : String)
    (h : pyStrip (pl.email.getD "") = "" ∨ pyStrip (pl.password.getD "") = "") :
    login_account db pl t
      = (db, .badRequest "E-Mail und Passwort sind erforderlich.", []) := by
  have hb : (pyStrip (pl.email.getD "") == "" || pyStrip (pl.password.getD "") == "") = true := by
    rcases h with h | h <;> simp [h]
  simp [login_account, hb]

theorem login_account_success (db : DB) (hWF : WF db) (pl : LoginPayload) (t : String)
    (he : pyStrip (pl.email.getD "") ≠ "") (hp : pyStrip (pl.password.getD "") ≠ "") :
    (login_account db pl t).1.jobs
      = db.jobs ++ [createdRow db t (pyStrip (pl.email.getD ""))
          (pyStrip (pl.password.getD "")) (pyStrip (pl.proxy.getD ""))]
    ∧ (login_account db pl t).2.1 = .started db.nextJobId
    ∧ (login_account db pl t).2.2 = [db.nextJobId] := by
  have hb : (pyStrip (pl.email.getD "") == "" || pyStrip (pl.password.getD "") == "") = false := by
    simp [he, hp]
  refine ⟨?_, ?_, ?_⟩ <;> simp only [login_account, hb, Bool.false_eq_true, if_false]
  · exact create_login_job_jobs db hWF t _ _ _
  · rfl
  · rfl

/-- C4: submitting with an email or password that is empty (after the
endpoint's strip) yields the 400 validation error and leaves the job table
untouched; with both non-empty, exactly one job row is appended — in status
`running`, with its profile path computed from the fresh job id and
persisted — the workflow is scheduled for exactly that job id, and the job
id is returned immediately (the call performs no browser work). -/
theorem submitSpec (db : DB) (hWF : WF db) (pl : LoginPayload) (t : String) :
    ((pyStrip (pl.email.getD "") = "" ∨ pyStrip (pl.password.getD "") = "") →
      login_account db pl t
        = (db, .badRequest "E-Mail und Passwort sind erforderlich.", []))
    ∧ (pyStrip (pl.email.getD "") ≠ "" → pyStrip (pl.password.getD "") ≠ "" →
      (login_account db pl t).1.jobs
          = db.jobs ++ [createdRow db t (pyStrip (pl.email.getD ""))
              (pyStrip (pl.password.getD "")) (pyStrip (pl.proxy.getD ""))]
      ∧ (login_account db pl t).2.1 = .started db.nextJobId
      ∧ (login_account db pl t).2.2 = [db.nextJobId]
      ∧ (createdRow db t (pyStrip (pl.email.getD "")) (pyStrip (pl.password.getD ""))
          (pyStrip (pl.proxy.getD ""))).status = "running"
      ∧ (createdRow db t (pyStrip (pl.email.getD "")) (pyStrip (pl.password.getD ""))
          (pyStrip (pl.proxy.getD ""))).profile_path = build_profile_path db.nextJobId) := by
  refine ⟨login_account_reject db pl t, fun he hp => ?_⟩
  obtain ⟨h1, h2, h3⟩ := login_account_success db hWF pl t he hp
  exact ⟨h1, h2, h3, rfl, rfl⟩

/-- An all-whitespace-email payload for witnesses. -/
def plWS : LoginPayload := { email := some "  \t ", password := some "pw", proxy := some "" }

/-- A payload with surrounding whitespace on every field, for witnesses. -/
def plPad : LoginPayload :=
  { email := some " user@example.com ", password := some " pw ", proxy := some " p " }

/-- A well-formed payload for witnesses. -/
def plGood : LoginPayload :=
  { email := some "user@example.com", password := some "pw", proxy := some "" }

/-- A payload with an empty email for witnesses. -/
def plNoEmail : LoginPayload := { email := some "", password := some "pw", proxy := some "p" }

theorem submitSpec_witness :
    login_account dbE plNoEmail "t0"
      = (dbE, .badRequest "E-Mail und Passwort sind erforderlich.", [])
    ∧ (login_account dbE plGood "t0").1.jobs
        = dbE.jobs ++ [createdRow dbE "t0" (pyStrip (plGood.email.getD ""))
            (pyStrip (plGood.password.getD "")) (pyStrip (plGood.proxy.getD ""))]
    ∧ (login_account dbE plGood "t0").2.1 = .started dbE.nextJobId :=
  ⟨(submitSpec dbE (by intro j hj; cases hj) plNoEmail "t0").1 (Or.inl (by decide)),
   ((submitSpec dbE (by intro j hj; cases hj) plGood "t0").2 (by decide) (by decide)).1,
   ((submitSpec dbE (by intro j hj; cases hj) plGood "t0").2 (by decide) (by decide)).2.1⟩

/-- C10: the submit endpoint strips leading/trailing whitespace before
validating and persisting — an email or password made only of whitespace is
rejected exactly like an empty one with no job row created, and any job row
the endpoint appends stores the stripped email, password and proxy, not the
raw input. -/
theorem submitStripsWhitespace (db : DB) (hWF : WF db) (pl : LoginPayload) (t : String) :
    ((∀ c ∈ (pl.email.getD "").data, isPySpace c = true) →
      login_account db pl t
        = (db, .badRequest "E-Mail und Passwort sind erforderlich.", []))
    ∧ ((∀ c ∈ (pl.password.getD "").data, isPySpace c = true) →
      login_account db pl t
        = (db, .badRequest "E-Mail und Passwort sind erforderlich.", []))
    ∧ (∀ r : LoginJob, (login_account db pl t).1.jobs = db.jobs ++ [r] →
        r.email = pyStrip (pl.email.getD "")
        ∧ r.password = pyStrip (pl.password.getD "")
        ∧ r.proxy = pyStrip (pl.proxy.getD "")) := by
  refine ⟨fun h => login_account_reject db pl t (Or.inl (pyStrip_all_space h)),
    fun h => login_account_reject db pl t (Or.inr (pyStrip_all_space h)),
    fun r hr => ?_⟩
  by_cases he : pyStrip (pl.email.getD "") = ""
  · rw [login_account_reject db pl t (Or.inl he)] at hr
    have := congrArg List.length hr
    simp at this
  · by_cases hp : pyStrip (pl.password.getD "") = ""
    · rw [login_account_reject db pl t (Or.inr hp)] at hr
      have := congrArg List.length hr
      simp at this
    · rw [(login_account_success db hWF pl t he hp).1] at hr
      have h2 := List.append_cancel_left hr
      have h3 : createdRow db t (pyStrip (pl.email.getD "")) (pyStrip (pl.password.getD ""))
          (pyStrip (pl.proxy.getD "")) = r := by simpa using h2
      rw [← h3]
      exact ⟨rfl, rfl, rfl⟩

theorem submitStripsWhitespace_witness :
    login_account dbE plWS "t0"
      = (dbE, .badRequest "E-Mail und Passwort sind erforderlich.", [])
    ∧ ((createdRow dbE "t0" (pyStrip (plPad.email.getD "")) (pyStrip (plPad.password.getD ""))
          (pyStrip (plPad.proxy.getD ""))).email = pyStrip (plPad.email.getD "")
      ∧ (createdRow dbE "t0" (pyStrip (plPad.email.getD "")) (pyStrip (plPad.password.getD ""))
          (pyStrip (plPad.proxy.getD ""))).password = pyStrip (plPad.password.getD "")
      ∧ (createdRow dbE "t0" (pyStrip (plPad.email.getD "")) (pyStrip (plPad.password.getD ""))
          (pyStrip (plPad.proxy.getD ""))).proxy = pyStrip (plPad.proxy.getD "")) :=
  ⟨(submitStripsWhitespace dbE (by intro j hj; cases hj) plWS "t0").1 (by decide),
   (submitStripsWhitespace dbE (by intro j hj; cases hj) plPad "t0").2.2
     (createdRow dbE "t0" (pyStrip (plPad.email.getD "")) (pyStrip (plPad.password.getD ""))
       (pyStrip (plPad.proxy.getD ""))) (by decide)⟩

theorem url_check_iff (obs : HeadlessObs) :
    ((!(obs.finalUrl == LOGIN_URL)) && !(strContains obs.finalUrl "anmeldung")) = true
      ↔ (obs.finalUrl ≠ LOGIN_URL ∧ ¬ ("anmeldung".data <:+: obs.finalUrl.data)) := by
  simp [strContains]

theorem cookie_check_iff (obs : HeadlessObs) :
    ((obs.cookies.map (fun c => (c.name.getD "").toLower)).any
        (fun nm => authTokens.any (fun tok => strContains nm tok)) = true)
      ↔ (∃ c ∈ obs.cookies, ∃ tok ∈ authTokens,
          tok.data <:+: ((c.name.getD "").toLower).data) := by
  rw [List.any_eq_true]
  constructor
  · rintro ⟨nm, hnm, hany⟩
    obtain ⟨c, hc, rfl⟩ := List.mem_map.mp hnm
    rw [List.any_eq_true] at hany
    obtain ⟨tok, htok, hsub⟩ := hany
    exact ⟨c, hc, tok, htok, by simpa [strContains] using hsub⟩
  · rintro ⟨c, hc, tok, htok, hsub⟩
    exact ⟨(c.name.getD "").toLower, List.mem_map.mpr ⟨c, hc, rfl⟩,
      List.any_eq_true.mpr ⟨tok, htok, by simpa [strContains] using hsub⟩⟩

/-- C5: `check_login_valid` returns true iff (a) the final URL differs from
the canonical login URL and does not contain the marker token `anmeldung`,
or (b) failing that, some persisted cookie's name — compared
case-insensitively — contains one of `session`, `sid`, `auth`, `token`; the
URL test is applied first and the headless session is closed before
returning on both outcomes. -/
theorem validityHeuristicSpec (obs : HeadlessObs) :
    ((check_login_valid obs).1 = true ↔
      ((obs.finalUrl ≠ LOGIN_URL ∧ ¬ ("anmeldung".data <:+: obs.finalUrl.data))
        ∨ (¬ (obs.finalUrl ≠ LOGIN_URL ∧ ¬ ("anmeldung".data <:+: obs.finalUrl.data))
           ∧ ∃ c ∈ obs.cookies, ∃ tok ∈ authTokens,
               tok.data <:+: ((c.name.getD "").toLower).data)))
    ∧ (check_login_valid obs).2 = true := by
  refine ⟨?_, rfl⟩
  dsimp only [check_login_valid]
  by_cases hb : ((!(obs.finalUrl == LOGIN_URL)) && !(strContains obs.finalUrl "anmeldung")) = true
  · rw [if_pos hb]
    exact iff_of_true hb (Or.inl ((url_check_iff obs).mp hb))
  · rw [if_neg hb]
    have hna : ¬ (obs.finalUrl ≠ LOGIN_URL ∧ ¬ ("anmeldung".data <:+: obs.finalUrl.data)) :=
      fun hP => hb ((url_check_iff obs).mpr hP)
    constructor
    · intro h
      exact Or.inr ⟨hna, (cookie_check_iff obs).mp h⟩
    · rintro (hP | ⟨_, hcb⟩)
      · exact absurd hP hna
      · exact (cookie_check_iff obs).mpr hcb

/-- Headless observations with an auth-indicating cookie for the witness. -/
def obsCookie : HeadlessObs :=
  { finalUrl := LOGIN_URL, cookies := [{ name := some "MySessionId" }] }

theorem validityHeuristicSpec_witness :
    ((check_login_valid obsCookie).1 = true ↔
      ((obsCookie.finalUrl ≠ LOGIN_URL ∧ ¬ ("anmeldung".data <:+: obsCookie.finalUrl.data))
        ∨ (¬ (obsCookie.finalUrl ≠ LOGIN_URL ∧ ¬ ("anmeldung".data <:+: obsCookie.finalUrl.data))
           ∧ ∃ c ∈ obsCookie.cookies, ∃ tok ∈ authTokens,
               tok.data <:+: ((c.name.getD "").toLower).data)))
    ∧ (check_login_valid obsCookie).2 = true :=
  validityHeuristicSpec obsCookie

end Manager
